import Mathlib

/-!
Verification of the veggie-muse repository against its natural-language
specification.  The definitions below are a shallow embedding of the
TypeScript source: browser storage, React state updates and external
AI calls are made explicit (storage contents become inductive values,
external calls become oracle parameters).  Theorems settle the frozen
claims about the History Ledger, the two-stage recipe generator, the
media retry loops, form validation, the shopping-list download, the
CAPTCHA generator and the API-key/verification state updates.
-/

namespace VeggieMuse

/-- Cap on each seen-items list (`MAX_SEEN_ITEMS` in app-context.tsx). -/
def MAX_SEEN_ITEMS : Nat := 100

/-- The possible states of one localStorage slot holding a seen-items list:
absent (`getItem` returns null), a JSON value that fails to parse
(the `catch` branch), a JSON value that parses but is not an array
(the `Array.isArray` guard fails), or a parsed string array. -/
inductive StoredSeen where
  | absent : StoredSeen
  | corrupt : StoredSeen
  | nonArray : StoredSeen
  | arr (items : List String) : StoredSeen
deriving Repr, DecidableEq

/-- `addSeenItem` from app-context.tsx: prepends the item to whatever was
stored and truncates to `MAX_SEEN_ITEMS`; on absent storage the parsed
list is `[]`; on corrupt or non-array storage it starts fresh with
`[item]`.  Returns the list written back to storage. -/
def addSeenItem : StoredSeen → String → List String
  | StoredSeen.absent, item => List.take MAX_SEEN_ITEMS (item :: [])
  | StoredSeen.arr items, item => List.take MAX_SEEN_ITEMS (item :: items)
  | StoredSeen.nonArray, item => [item]
  | StoredSeen.corrupt, item => [item]

/-- The composite key `destination|dishNameEnglish` used by
`addSeenPassportDishes`. -/
def passportKey (destination dish : String) : String :=
  destination ++ "|" ++ dish

/-- `addSeenPassportDishes` from app-context.tsx: maps the dishes to
composite keys, removes those keys from the stored list, prepends the
new keys and truncates to `MAX_SEEN_ITEMS`; on corrupt or non-array
storage the new keys alone are written. -/
def addSeenPassportDishes (stored : StoredSeen) (dishes : List String)
    (destination : String) : List String :=
  let newDishes := dishes.map (passportKey destination)
  match stored with
  | StoredSeen.absent => List.take MAX_SEEN_ITEMS (newDishes ++ [])
  | StoredSeen.arr items =>
      List.take MAX_SEEN_ITEMS
        (newDishes ++ items.filter (fun d => !(newDishes.contains d)))
  | StoredSeen.nonArray => newDishes
  | StoredSeen.corrupt => newDishes

/-- Result of one awaited external AI call: the call either returned, with
a possibly null structured output (genkit prompts can resolve with
`output = null`), or threw with an error message. -/
inductive CallResult (α : Type) where
  | ok (output : Option α) : CallResult α
  | thrown (msg : String) : CallResult α
deriving Repr, DecidableEq

/-- JS `message.includes(pat)`, for the `'SAFETY'` checks. -/
def jsIncludes (s pat : String) : Bool :=
  (s.splitOn pat).length > 1

/-- The `media` part of an `ai.generate` result; its `url` may be absent. -/
structure MediaPart where
  url : Option String
deriving Repr, DecidableEq

/-- JS `media?.url || ''`: the url if the media part and its url are
present, the empty string otherwise (an empty url maps to itself). -/
def jsUrlOrEmpty (media : Option MediaPart) : String :=
  (media.bind MediaPart.url).getD ""

/-- One recipe candidate (RecipeOptionSchema in recipe-schemas). -/
structure RecipeOption where
  recipeName : String
  description : String
  instructions : String
  ingredientList : List String
  missingIngredients : List String
  nutritionalInformation : String
deriving Repr, DecidableEq

/-- One quote candidate (QuoteOptionSchema). -/
structure QuoteOption where
  quote : String
  quoteAuthor : String
deriving Repr, DecidableEq

/-- Stage-1 output: 5 recipe candidates and 5 quote candidates
(GenerateRecipeOptionsOutputSchema; the length-5 constraint is carried
as a hypothesis where needed). -/
structure RecipeOptionsOutput where
  recipeOptions : List RecipeOption
  quoteOptions : List QuoteOption
deriving Repr, DecidableEq

/-- Stage-2 output (ValidateAndSelectOutputSchema). -/
structure ValidateAndSelectOutput where
  selectedRecipe : RecipeOption
  selectedQuote : QuoteOption
deriving Repr, DecidableEq

/-- Final output of the recipe flow (GenerateRecipeOutputSchema). -/
structure GenerateRecipeOutput where
  recipeName : String
  description : String
  photoDataUri : String
  instructions : String
  ingredientList : List String
  missingIngredients : List String
  nutritionalInformation : String
  quote : String
  quoteAuthor : String
deriving Repr, DecidableEq

/-- The single image-generation attempt of `generateRecipeFlow` (step 3):
the source performs exactly one `ai.generate` call inside a try/catch,
so only attempt 0 of the ambient attempt sequence is consumed; a throw
leaves `media` undefined. -/
def recipeImageMedia (tries : Nat → CallResult MediaPart) : Option MediaPart :=
  match tries 0 with
  | CallResult.thrown _ => none
  | CallResult.ok m => m

/-- `generateRecipeFlow` from generate-recipe.ts, with the three external
calls supplied as oracles.  Step 1 failure maps `'SAFETY'` messages to a
thrown `SAFETY_BLOCK` and anything else to a null result; a step-2 throw
falls back to the index-0 candidates (a fallback on an empty candidate
list would dereference `undefined` in the source, modelled as a thrown
TypeError); the image result is reduced with `media?.url || ''`. -/
def generateRecipeFlow
    (step1 : CallResult RecipeOptionsOutput)
    (step2 : RecipeOptionsOutput → CallResult ValidateAndSelectOutput)
    (imageTries : Nat → CallResult MediaPart) :
    Except String (Option GenerateRecipeOutput) :=
  match step1 with
  | CallResult.thrown msg =>
      if jsIncludes msg "SAFETY" then Except.error "SAFETY_BLOCK"
      else Except.ok none
  | CallResult.ok none => Except.ok none
  | CallResult.ok (some optionsOutput) =>
      let sel : Except String (Option ValidateAndSelectOutput) :=
        match step2 optionsOutput with
        | CallResult.ok out => Except.ok out
        | CallResult.thrown _ =>
            match optionsOutput.recipeOptions.head?,
                  optionsOutput.quoteOptions.head? with
            | some r, some q =>
                Except.ok (some { selectedRecipe := r, selectedQuote := q })
            | _, _ => Except.error "TypeError"
      match sel with
      | Except.error e => Except.error e
      | Except.ok none => Except.ok none
      | Except.ok (some finalSelection) =>
          Except.ok (some
            { recipeName := finalSelection.selectedRecipe.recipeName,
              description := finalSelection.selectedRecipe.description,
              photoDataUri := jsUrlOrEmpty (recipeImageMedia imageTries),
              instructions := finalSelection.selectedRecipe.instructions,
              ingredientList := finalSelection.selectedRecipe.ingredientList,
              missingIngredients := finalSelection.selectedRecipe.missingIngredients,
              nutritionalInformation :=
                finalSelection.selectedRecipe.nutritionalInformation,
              quote := finalSelection.selectedQuote.quote,
              quoteAuthor := finalSelection.selectedQuote.quoteAuthor })

/-- The bounded media retry loop of culinaryPassportFlow
(`while (!media && attempts < maxAttempts)`): attempt `i` with the given
remaining fuel; a throw or a returned-but-absent media part both leave
`media` falsy and continue. -/
def mediaAttemptLoop (tries : Nat → CallResult MediaPart) :
    Nat → Nat → Option MediaPart
  | _, 0 => none
  | i, fuel + 1 =>
      match tries i with
      | CallResult.ok (some m) => some m
      | CallResult.ok none => mediaAttemptLoop tries (i + 1) fuel
      | CallResult.thrown _ => mediaAttemptLoop tries (i + 1) fuel

/-- Follows the spec text for the retry policy: the first attempt result
that produced a media part, among the listed attempts, else nothing. -/
def firstMedia : List (CallResult MediaPart) → Option MediaPart
  | [] => none
  | CallResult.ok (some m) :: _ => some m
  | CallResult.ok none :: rest => firstMedia rest
  | CallResult.thrown _ :: rest => firstMedia rest

/-- A dish recommendation (DishRecommendationSchema). -/
structure DishRecommendation where
  dishNameEnglish : String
  dishNameLocal : String
  description : String
deriving Repr, DecidableEq

/-- A dish recommendation extended with its generated photo. -/
structure DishRecommendationWithPhoto extends DishRecommendation where
  photoDataUri : String
deriving Repr, DecidableEq

/-- Text-only passport output (CulinaryPassportTextSchema). -/
structure CulinaryPassportText where
  recommendations : List DishRecommendation
  chefCardMessage : String
deriving Repr, DecidableEq

/-- Final passport output (CulinaryPassportSchema). -/
structure CulinaryPassport where
  recommendations : List DishRecommendationWithPhoto
  chefCardMessage : String
  chefCardAudioUri : String
deriving Repr, DecidableEq

/-- `createFallbackPassport` from culinary-passport.ts. -/
def createFallbackPassport (destination : String) : CulinaryPassport :=
  { recommendations := [],
    chefCardMessage :=
      "We're sorry, we couldn't generate a culinary passport for " ++ destination ++
        " at this moment due to high demand. Please try again in a few minutes.",
    chefCardAudioUri := "" }

/-- The text-generation retry loop of culinaryPassportFlow: up to the
given fuel many attempts; a `'SAFETY'` throw re-throws `SAFETY_BLOCK`;
exhaustion (by throws or null outputs) yields nothing, which the flow
maps to the fallback passport. -/
def textAttemptLoop (tries : Nat → CallResult CulinaryPassportText) :
    Nat → Nat → Except String (Option CulinaryPassportText)
  | _, 0 => Except.ok none
  | i, fuel + 1 =>
      match tries i with
      | CallResult.ok (some t) => Except.ok (some t)
      | CallResult.ok none => textAttemptLoop tries (i + 1) fuel
      | CallResult.thrown msg =>
          if jsIncludes msg "SAFETY" then Except.error "SAFETY_BLOCK"
          else textAttemptLoop tries (i + 1) fuel

/-- JS `s.substring(s.indexOf(',') + 1)`: everything after the first
comma, or the whole string when there is no comma. -/
def afterFirstComma (s : String) : String :=
  match s.splitOn "," with
  | [] => s
  | [_] => s
  | _ :: rest => String.intercalate "," rest

/-- The `audioPromise` of culinaryPassportFlow: empty on a falsy chef-card
message, up to 3 media attempts, empty on exhaustion or a falsy url,
otherwise the WAV data URI built from the PCM payload after the comma
(`toWavB64` stands for the external base64-decode / wav-encode /
base64-encode pipeline). -/
def audioAttemptResult (tries : Nat → CallResult MediaPart)
    (toWavB64 : String → String) (chefCardMessage : String) : String :=
  if chefCardMessage = "" then ""
  else
    match mediaAttemptLoop tries 0 3 with
    | none => ""
    | some m =>
        match m.url with
        | none => ""
        | some u =>
            if u = "" then ""
            else "data:audio/wav;base64," ++ toWavB64 (afterFirstComma u)

/-- `culinaryPassportFlow` from culinary-passport.ts, with the external
calls supplied as oracles: text generation with up to 3 attempts falling
back to `createFallbackPassport`; per-recommendation image loops of up
to 3 attempts reduced with `media?.url || ''`; the audio loop of up to 3
attempts. -/
def culinaryPassportFlow (destination : String)
    (textTries : Nat → CallResult CulinaryPassportText)
    (imgTries : Nat → Nat → CallResult MediaPart)
    (audioTries : Nat → CallResult MediaPart)
    (toWavB64 : String → String) : Except String CulinaryPassport :=
  match textAttemptLoop textTries 0 3 with
  | Except.error e => Except.error e
  | Except.ok none => Except.ok (createFallbackPassport destination)
  | Except.ok (some textOutput) =>
      Except.ok
        { recommendations :=
            textOutput.recommendations.enum.map (fun p =>
              { toDishRecommendation := p.2,
                photoDataUri := jsUrlOrEmpty (mediaAttemptLoop (imgTries p.1) 0 3) }),
          chefCardMessage := textOutput.chefCardMessage,
          chefCardAudioUri :=
            audioAttemptResult audioTries toWavB64 textOutput.chefCardMessage }

/-- Witness candidates for the recipe flow. -/
def exRecipeOption : RecipeOption :=
  { recipeName := "Rice Bowl", description := "cozy", instructions := "cook",
    ingredientList := ["rice"], missingIngredients := [],
    nutritionalInformation := "n/a" }

def exQuoteOption : QuoteOption :=
  { quote := "Stay hungry", quoteAuthor := "Someone" }

def exOpts : RecipeOptionsOutput :=
  { recipeOptions :=
      [exRecipeOption, exRecipeOption, exRecipeOption, exRecipeOption, exRecipeOption],
    quoteOptions :=
      [exQuoteOption, exQuoteOption, exQuoteOption, exQuoteOption, exQuoteOption] }

/-- An attempt sequence whose first request fails and whose second
succeeds: a retrying policy recovers, a single request does not. -/
def exImageTries : Nat → CallResult MediaPart :=
  fun n => if n = 0 then CallResult.thrown "err"
           else CallResult.ok (some { url := some "u" })

/-- Witness passport text output. -/
def exPassportText : CulinaryPassportText :=
  { recommendations :=
      [{ dishNameEnglish := "Dosa", dishNameLocal := "Dose", description := "crisp" }],
    chefCardMessage := "No peanuts please" }

def exSelection : ValidateAndSelectOutput :=
  { selectedRecipe := exRecipeOption, selectedQuote := exQuoteOption }

/-- JS string falsiness for optional string values: `undefined`, `null`
and the empty string are falsy. -/
def jsFalsyStr : Option String → Bool
  | none => true
  | some s => s == ""

/-- JS `String.prototype.trim`: strip leading and trailing whitespace
(modelled over the character list so that it evaluates by reduction). -/
def jsTrim (s : String) : String :=
  String.mk
    (((s.data.dropWhile Char.isWhitespace).reverse.dropWhile Char.isWhitespace).reverse)

/-- JS `s.split(',').map(s => s.trim()).filter(Boolean)`. -/
def splitTrimFilter (s : String) : List String :=
  ((s.splitOn ",").map jsTrim).filter (fun t => t ≠ "")

/-- The `moodMap` lookup object of the recipe form; indices outside 0..7
yield `undefined`. -/
def moodMap : Nat → Option String
  | 0 => some "Comforting"
  | 1 => some "Cozy"
  | 2 => some "Happy"
  | 3 => some "Adventurous"
  | 4 => some "Energized"
  | 5 => some "Romantic"
  | 6 => some "Celebratory"
  | 7 => some "Healthy"
  | _ => none

/-- The recipe form values handed to `onSubmit` (recipeFormSchema). -/
structure RecipeFormValues where
  mood : List Nat
  duration : Option String
  dislikedIngredients : Option String
  availableIngredients : List String
  additionalIngredients : Option String
deriving Repr, DecidableEq

/-- The payload `onSubmit` builds for `generateRecipe`
(GenerateRecipeInputSchema). -/
structure GenerateRecipeInput where
  mood : Option String
  vegetarian : Bool
  duration : Option String
  dislikedIngredients : List String
  availableIngredients : List String
  additionalIngredients : List String
  photoDataUri : Option String
  seenQuotes : List String
  seenRecipeTitles : List String
deriving Repr, DecidableEq

/-- The observable outcome of one `onSubmit` run: an early return with a
field-level error on `availableIngredients`, an early return with the
missing-API-key toast, or a `generateRecipe` request with the built
input. -/
inductive SubmitOutcome where
  | fieldError (field msg : String) : SubmitOutcome
  | missingKeyToast : SubmitOutcome
  | generationRequested (input : GenerateRecipeInput) : SubmitOutcome
deriving Repr, DecidableEq

/-- `onSubmit` of the RecipeGenerator component, up to the point where the
generation request is issued: the ingredient-signal guard, the API-key
guard, then the construction of the `generateRecipe` input (comma
splitting with trim and truthiness filtering, `ingredientPhoto ||
undefined`, the current seen lists). -/
def onSubmit (data : RecipeFormValues) (ingredientPhoto : Option String)
    (apiKey : Option String) (seenQuotes seenRecipeTitles : List String) :
    SubmitOutcome :=
  if data.availableIngredients.length == 0 &&
      (jsFalsyStr data.additionalIngredients ||
        jsTrim (data.additionalIngredients.getD "") == "") &&
      ingredientPhoto.isNone then
    SubmitOutcome.fieldError "availableIngredients"
      "Please provide at least one ingredient via photo, checklist, or text input."
  else if jsFalsyStr apiKey then
    SubmitOutcome.missingKeyToast
  else
    SubmitOutcome.generationRequested
      { mood := data.mood.head?.bind moodMap,
        vegetarian := true,
        duration := data.duration,
        dislikedIngredients :=
          if jsFalsyStr data.dislikedIngredients then []
          else splitTrimFilter (data.dislikedIngredients.getD ""),
        availableIngredients := data.availableIngredients,
        additionalIngredients :=
          if jsFalsyStr data.additionalIngredients then []
          else splitTrimFilter (data.additionalIngredients.getD ""),
        photoDataUri := if jsFalsyStr ingredientPhoto then none else ingredientPhoto,
        seenQuotes := seenQuotes,
        seenRecipeTitles := seenRecipeTitles }

/-- `handleDownloadShoppingList`: JS `[...new Set(ingredients)]` keeps
insertion order, modelled by a left fold that appends unseen elements. -/
def jsSetDedup (l : List String) : List String :=
  l.foldl (fun acc x => if x ∈ acc then acc else acc ++ [x]) []

/-- The downloaded shopping-list text: the de-duplicated ingredients
joined with newlines (identical in the recipe and weekly-plan forms). -/
def handleDownloadShoppingList (ingredients : List String) : String :=
  String.intercalate "\n" (jsSetDedup ingredients)

/-- Follows the spec text for de-duplication: keep exactly the first
occurrence of each ingredient, preserving first-occurrence order. -/
def dedupFirstSpec : List String → List String
  | [] => []
  | x :: xs => x :: dedupFirstSpec (xs.filter (fun y => y ≠ x))
termination_by l => l.length
decreasing_by
  simp only [List.length_cons]
  have := List.length_filter_le (fun y => decide (y ≠ x)) xs
  omega

/-- Modelled from the spec: the stage-2 selection itself is executed by
the external model following the validateAndSelectPrompt instructions
(no deterministic selection code exists in the repository, only the
prompt text).  The model's semantic-similarity judgment is abstracted as
a Boolean relation; a title collides with the History Ledger when some
seen entry is judged similar to it. -/
def collidesWith (sim : String → String → Bool) (seen : List String)
    (title : String) : Bool :=
  seen.any (fun s => sim s title)

/-- Modelled from the spec: select the index of the first candidate title
that does not collide with the seen list; when every candidate collides,
select index 0 (the prompt's "select the first recipe from the options"
edge policy). -/
def selectFirstUniqueIdx (sim : String → String → Bool) (seen : List String)
    (titles : List String) : Nat :=
  match titles.findIdx? (fun t => !(collidesWith sim seen t)) with
  | some i => i
  | none => 0

/-- The arithmetic operation drawn by `generateMathProblem`
(`operations = ['+', '-', '*']`). -/
inductive MathOp where
  | add : MathOp
  | sub : MathOp
  | mul : MathOp
deriving Repr, DecidableEq

/-- The operator symbol interpolated into the question string. -/
def opSymbol : MathOp → String
  | MathOp.add => "+"
  | MathOp.sub => "-"
  | MathOp.mul => "*"

/-- Exact integer value of the arithmetic expression `a op b`. -/
def evalExpr (a : Int) (op : MathOp) (b : Int) : Int :=
  match op with
  | MathOp.add => a + b
  | MathOp.sub => a - b
  | MathOp.mul => a * b

/-- The question template `What is ${a} ${operation} ${b}?`. -/
def renderQuestion (a : Int) (op : MathOp) (b : Int) : String :=
  "What is " ++ toString a ++ " " ++ opSymbol op ++ " " ++ toString b ++ "?"

/-- A CAPTCHA challenge (GenerateCaptchaOutputSchema). -/
structure MathProblem where
  question : String
  answer : String
deriving Repr, DecidableEq

/-- `generateMathProblem` from generate-captcha.ts, with the two random
draws (each 1..10) and the drawn operation as inputs: subtraction swaps
the operands in both the question and the answer when the first operand
is smaller. -/
def generateMathProblem (num1 num2 : Int) (op : MathOp) : MathProblem :=
  match op with
  | MathOp.add =>
      { question := renderQuestion num1 MathOp.add num2,
        answer := toString (num1 + num2) }
  | MathOp.sub =>
      if num1 < num2 then
        { question := renderQuestion num2 MathOp.sub num1,
          answer := toString (num2 - num1) }
      else
        { question := renderQuestion num1 MathOp.sub num2,
          answer := toString (num1 - num2) }
  | MathOp.mul =>
      { question := renderQuestion num1 MathOp.mul num2,
        answer := toString (num1 * num2) }

/-- `generateCaptcha`: throws when the API key is falsy, otherwise wraps
`generateMathProblem` (the inner try/catch can only take the success
branch since nothing in it throws). -/
def generateCaptcha (apiKey : String) (num1 num2 : Int) (op : MathOp) :
    Except String (Option MathProblem) :=
  if apiKey = "" then Except.error "API Key is required for this operation."
  else Except.ok (some (generateMathProblem num1 num2 op))

/-- The app-context state relevant to `setApiKey` and `setVerifiedHuman`:
the two React state fields, their storage slots, and the four seen-item
lists. -/
structure AppCtxState where
  apiKey : Option String
  isVerifiedHuman : Bool
  apiKeyStorage : Option String
  humanVerifiedStorage : Option String
  seenQuotes : List String
  seenRecipeTitles : List String
  seenPassportDishes : List String
  seenWeeklyPlanTitles : List String
deriving Repr, DecidableEq

/-- `setVerifiedHuman` from app-context.tsx: updates the state flag and
persists `String(isVerified)` to session storage. -/
def setVerifiedHuman (s : AppCtxState) (isVerified : Bool) : AppCtxState :=
  { s with isVerifiedHuman := isVerified,
           humanVerifiedStorage := some (if isVerified then "true" else "false") }

/-- `setApiKey` from app-context.tsx: sets the state, then on a truthy key
persists it; on a falsy key (null, or the empty string, since JS `if
(key)` tests truthiness) removes the stored key and resets verification
via `setVerifiedHuman false`. -/
def setApiKey (s : AppCtxState) (key : Option String) : AppCtxState :=
  let s1 := { s with apiKey := key }
  if jsFalsyStr key = false then { s1 with apiKeyStorage := key }
  else setVerifiedHuman { s1 with apiKeyStorage := none } false

/-- A state with the verification flag set, to exercise `setApiKey`. -/
def exCtxState : AppCtxState :=
  { apiKey := some "old-key", isVerifiedHuman := true,
    apiKeyStorage := some "old-key", humanVerifiedStorage := some "true",
    seenQuotes := ["q"], seenRecipeTitles := ["r"],
    seenPassportDishes := ["p"], seenWeeklyPlanTitles := ["w"] }

theorem addSeenItem_length_le (stored : StoredSeen) (item : String) :
    (addSeenItem stored item).length ≤ MAX_SEEN_ITEMS := by
  cases stored <;> simp [addSeenItem, MAX_SEEN_ITEMS]

theorem addSeenItem_head (stored : StoredSeen) (item : String) :
    (addSeenItem stored item).head? = some item := by
  cases stored <;> rfl

theorem addSeenPassportDishes_single_length_le (stored : StoredSeen)
    (dish destination : String) :
    (addSeenPassportDishes stored [dish] destination).length ≤ MAX_SEEN_ITEMS := by
  cases stored <;> simp [addSeenPassportDishes, MAX_SEEN_ITEMS]

theorem addSeenPassportDishes_single_head (stored : StoredSeen)
    (dish destination : String) :
    (addSeenPassportDishes stored [dish] destination).head? =
      some (passportKey destination dish) := by
  cases stored <;> rfl

/-- C2: for every starting storage state, recording one key leaves a list
of length at most 100 whose head is the newly recorded key, for both the
generic `addSeenItem` ledger update and the passport-dish update. -/
theorem C2_record_cap_and_newest_first :
    (∀ (stored : StoredSeen) (item : String),
        (addSeenItem stored item).length ≤ MAX_SEEN_ITEMS ∧
        (addSeenItem stored item).head? = some item) ∧
    (∀ (stored : StoredSeen) (dish destination : String),
        (addSeenPassportDishes stored [dish] destination).length ≤ MAX_SEEN_ITEMS ∧
        (addSeenPassportDishes stored [dish] destination).head? =
          some (passportKey destination dish)) := by
  constructor
  · intro stored item
    exact ⟨addSeenItem_length_le stored item, addSeenItem_head stored item⟩
  · intro stored dish destination
    exact ⟨addSeenPassportDishes_single_length_le stored dish destination,
      addSeenPassportDishes_single_head stored dish destination⟩

/-- C1 fails on the code: recording the same key twice with `addSeenItem`
(starting from empty storage, i.e. a reachable sequence of record
operations) leaves two occurrences of the key in the stored list. -/
theorem C1_counterexample :
    (addSeenItem (StoredSeen.arr (addSeenItem StoredSeen.absent "x")) "x").count "x"
      = 2 := by
  decide

theorem passport_filter_not_mem (stored : List String) (k : String) :
    k ∉ stored.filter (fun d => !([k].contains d)) := by
  intro hmem
  rcases List.mem_filter.mp hmem with ⟨-, hk⟩
  simp at hk

/-- C1 amended: only the passport-dish update deduplicates.  Recording a
single dish leaves at most one occurrence of its composite key, from any
previously stored list; the generic `addSeenItem` update performs no
deduplication, so a repeated record of the same key leaves two
occurrences. -/
theorem C1_amended_dedup :
    (∀ (stored : List String) (dish destination : String),
        (addSeenPassportDishes (StoredSeen.arr stored) [dish] destination).count
            (passportKey destination dish) ≤ 1) ∧
    (addSeenItem (StoredSeen.arr ["y"]) "y").count "y" = 2 := by
  constructor
  · intro stored dish destination
    set k := passportKey destination dish with hk
    have hsub :
        (addSeenPassportDishes (StoredSeen.arr stored) [dish] destination).Sublist
          (k :: stored.filter (fun d => !([k].contains d))) := by
      simpa [addSeenPassportDishes, hk] using
        (List.take_sublist MAX_SEEN_ITEMS
          (k :: stored.filter (fun d => !([k].contains d))))
    have hcount := hsub.count_le k
    have hzero : (stored.filter (fun d => !([k].contains d))).count k = 0 :=
      List.count_eq_zero.mpr (passport_filter_not_mem stored k)
    have hone : (k :: stored.filter (fun d => !([k].contains d))).count k = 1 := by
      rw [List.count_cons_self, hzero]
    omega
  · decide

/-- C3: when stage 1 produced a non-null 5-candidate set, a thrown stage-2
call makes the flow select the index-0 recipe and quote candidates, and
the flow still returns a non-null result (no error, no null) whatever
the image call does. -/
theorem C3_stage2_failure_falls_back_to_first
    (opts : RecipeOptionsOutput) (r : RecipeOption) (q : QuoteOption)
    (rs : List RecipeOption) (qs : List QuoteOption)
    (step2 : RecipeOptionsOutput → CallResult ValidateAndSelectOutput)
    (imageTries : Nat → CallResult MediaPart) (msg : String)
    (hr : opts.recipeOptions = r :: rs) (hr5 : opts.recipeOptions.length = 5)
    (hq : opts.quoteOptions = q :: qs) (hq5 : opts.quoteOptions.length = 5)
    (h2 : step2 opts = CallResult.thrown msg) :
    ∃ out, generateRecipeFlow (CallResult.ok (some opts)) step2 imageTries =
        Except.ok (some out) ∧
      out.recipeName = r.recipeName ∧ out.quote = q.quote := by
  refine ⟨⟨r.recipeName, r.description, jsUrlOrEmpty (recipeImageMedia imageTries),
    r.instructions, r.ingredientList, r.missingIngredients,
    r.nutritionalInformation, q.quote, q.quoteAuthor⟩, ?_, rfl, rfl⟩
  simp [generateRecipeFlow, h2, hr, hq]

theorem C3_witness :
    ∃ out, generateRecipeFlow (CallResult.ok (some exOpts))
        (fun _ => CallResult.thrown "boom") (fun _ => CallResult.ok none) =
        Except.ok (some out) ∧
      out.recipeName = exRecipeOption.recipeName ∧
      out.quote = exQuoteOption.quote :=
  C3_stage2_failure_falls_back_to_first exOpts exRecipeOption exQuoteOption _ _
    (fun _ => CallResult.thrown "boom") (fun _ => CallResult.ok none) "boom"
    rfl rfl rfl rfl rfl

/-- C4 fails on the code: the selected recipe's photo request is not
retried.  On an attempt sequence whose first request fails and whose
second would succeed, the recipe flow's image step yields no media while
the 3-attempt retry loop (used for passport images) yields the media of
the second attempt. -/
theorem C4_counterexample :
    recipeImageMedia exImageTries ≠ mediaAttemptLoop exImageTries 0 3 ∧
    recipeImageMedia exImageTries = none ∧
    mediaAttemptLoop exImageTries 0 3 = some { url := some "u" } := by
  refine ⟨?_, rfl, rfl⟩
  decide

/-- C4 amended: each culinary-passport recommendation photo (and the
chef-card audio) uses the bounded retry loop, which returns the first
media produced among at most 3 attempts; the selected recipe's photo is
requested exactly once, with no retry ever consulting a later attempt. -/
theorem mediaAttemptLoop_succ (tries : Nat → CallResult MediaPart) (i fuel : Nat) :
    mediaAttemptLoop tries i (fuel + 1) =
      match tries i with
      | CallResult.ok (some m) => some m
      | CallResult.ok none => mediaAttemptLoop tries (i + 1) fuel
      | CallResult.thrown _ => mediaAttemptLoop tries (i + 1) fuel := rfl

theorem mediaAttemptLoop_eq_firstMedia (tries : Nat → CallResult MediaPart) :
    ∀ (fuel i : Nat),
      mediaAttemptLoop tries i fuel =
        firstMedia ((List.range fuel).map (fun k => tries (i + k)))
  | 0, _ => rfl
  | fuel + 1, i => by
    rw [List.range_succ_eq_map]
    simp only [List.map_cons, List.map_map]
    rw [mediaAttemptLoop_succ]
    cases h0 : tries (i + 0) with
    | ok o =>
      cases o with
      | some m =>
        rw [Nat.add_zero] at h0
        rw [h0, firstMedia]
      | none =>
        rw [Nat.add_zero] at h0
        rw [h0]
        dsimp only
        rw [firstMedia, mediaAttemptLoop_eq_firstMedia tries fuel (i + 1)]
        congr 1
        apply List.map_congr_left
        intro k _
        simp only [Function.comp_apply]
        congr 1
        omega
    | thrown s =>
      rw [Nat.add_zero] at h0
      rw [h0]
      dsimp only
      rw [firstMedia, mediaAttemptLoop_eq_firstMedia tries fuel (i + 1)]
      congr 1
      apply List.map_congr_left
      intro k _
      simp only [Function.comp_apply]
      congr 1
      omega

theorem C4_amended_retry_bounds (tries : Nat → CallResult MediaPart) :
    mediaAttemptLoop tries 0 3 = firstMedia [tries 0, tries 1, tries 2] ∧
    recipeImageMedia tries = firstMedia [tries 0] := by
  constructor
  · rw [mediaAttemptLoop_eq_firstMedia]
    norm_num [List.range_succ]
  · cases h0 : tries 0 with
    | ok o => cases o <;> simp [recipeImageMedia, firstMedia, h0]
    | thrown s => simp [recipeImageMedia, firstMedia, h0]

theorem textAttemptLoop_succ (tries : Nat → CallResult CulinaryPassportText)
    (i fuel : Nat) :
    textAttemptLoop tries i (fuel + 1) =
      match tries i with
      | CallResult.ok (some t) => Except.ok (some t)
      | CallResult.ok none => textAttemptLoop tries (i + 1) fuel
      | CallResult.thrown msg =>
          if jsIncludes msg "SAFETY" then Except.error "SAFETY_BLOCK"
          else textAttemptLoop tries (i + 1) fuel := rfl

/-- C5: when every media attempt fails, the recipe flow still returns a
result with an empty `photoDataUri`, and the passport flow still returns
a result with empty `photoDataUri` on every recommendation and an empty
`chefCardAudioUri`; neither flow throws because of the media failure. -/
theorem C5_media_failure_graceful
    (opts : RecipeOptionsOutput) (selOut : ValidateAndSelectOutput)
    (step2 : RecipeOptionsOutput → CallResult ValidateAndSelectOutput)
    (h2 : step2 opts = CallResult.ok (some selOut)) (emsg : String)
    (destination : String) (t : CulinaryPassportText)
    (textTries : Nat → CallResult CulinaryPassportText)
    (imgTries : Nat → Nat → CallResult MediaPart)
    (audioTries : Nat → CallResult MediaPart) (toWavB64 : String → String)
    (ht : textTries 0 = CallResult.ok (some t))
    (himg : ∀ i n, imgTries i n = CallResult.thrown emsg)
    (haud : ∀ n, audioTries n = CallResult.thrown emsg) :
    (∃ out, generateRecipeFlow (CallResult.ok (some opts)) step2
        (fun _ => CallResult.thrown emsg) = Except.ok (some out) ∧
      out.photoDataUri = "") ∧
    (∃ p, culinaryPassportFlow destination textTries imgTries audioTries toWavB64 =
        Except.ok p ∧
      p.chefCardAudioUri = "" ∧
      ∀ rec ∈ p.recommendations, rec.photoDataUri = "") := by
  have hloop : ∀ tries : Nat → CallResult MediaPart,
      (∀ n, tries n = CallResult.thrown emsg) → mediaAttemptLoop tries 0 3 = none := by
    intro tries hall
    rw [mediaAttemptLoop_eq_firstMedia]
    norm_num [List.range_succ, hall, firstMedia]
  constructor
  · refine ⟨⟨selOut.selectedRecipe.recipeName, selOut.selectedRecipe.description,
      "", selOut.selectedRecipe.instructions, selOut.selectedRecipe.ingredientList,
      selOut.selectedRecipe.missingIngredients,
      selOut.selectedRecipe.nutritionalInformation, selOut.selectedQuote.quote,
      selOut.selectedQuote.quoteAuthor⟩, ?_, rfl⟩
    simp [generateRecipeFlow, h2, jsUrlOrEmpty, recipeImageMedia]
  · refine ⟨⟨t.recommendations.enum.map (fun q => ⟨q.2, ""⟩),
      t.chefCardMessage, ""⟩, ?_, rfl, ?_⟩
    · simp only [culinaryPassportFlow, textAttemptLoop_succ, ht]
      simp only [Except.ok.injEq, CulinaryPassport.mk.injEq]
      refine ⟨?_, trivial, ?_⟩
      · apply List.map_congr_left
        intro q _
        simp [jsUrlOrEmpty, hloop (imgTries q.1) (fun n => himg q.1 n)]
      · simp only [audioAttemptResult, hloop audioTries haud]
        split <;> rfl
    · intro rec hrec
      simp only [List.mem_map] at hrec
      rcases hrec with ⟨q, -, hpeq⟩
      rw [← hpeq]

theorem C5_witness :
    (∃ out, generateRecipeFlow (CallResult.ok (some exOpts))
        (fun _ => CallResult.ok (some exSelection))
        (fun _ => CallResult.thrown "down") = Except.ok (some out) ∧
      out.photoDataUri = "") ∧
    (∃ p, culinaryPassportFlow "Kyoto" (fun _ => CallResult.ok (some exPassportText))
        (fun _ _ => CallResult.thrown "down") (fun _ => CallResult.thrown "down")
        (fun s => s) = Except.ok p ∧
      p.chefCardAudioUri = "" ∧
      ∀ rec ∈ p.recommendations, rec.photoDataUri = "") :=
  C5_media_failure_graceful exOpts exSelection
    (fun _ => CallResult.ok (some exSelection)) rfl "down" "Kyoto" exPassportText
    (fun _ => CallResult.ok (some exPassportText))
    (fun _ _ => CallResult.thrown "down") (fun _ => CallResult.thrown "down")
    (fun s => s) rfl (fun _ _ => rfl) (fun _ => rfl)

/-- C6: with an empty checklist, a blank (empty or whitespace-only)
free-text ingredient field and no photo, `onSubmit` sets the field error
on `availableIngredients` and returns before any generation call. -/
theorem C6_empty_ingredient_signal_blocks (data : RecipeFormValues)
    (photo apiKey : Option String) (seenQuotes seenRecipeTitles : List String)
    (h1 : data.availableIngredients = [])
    (h2 : jsTrim (data.additionalIngredients.getD "") = "")
    (h3 : photo = none) :
    onSubmit data photo apiKey seenQuotes seenRecipeTitles =
      SubmitOutcome.fieldError "availableIngredients"
        "Please provide at least one ingredient via photo, checklist, or text input." := by
  simp [onSubmit, h1, h2, h3]

theorem C6_witness :
    onSubmit
      { mood := [1], duration := some "30", dislikedIngredients := some "",
        availableIngredients := [], additionalIngredients := some "   " }
      none (some "key") [] [] =
      SubmitOutcome.fieldError "availableIngredients"
        "Please provide at least one ingredient via photo, checklist, or text input." :=
  C6_empty_ingredient_signal_blocks
    { mood := [1], duration := some "30", dislikedIngredients := some "",
      availableIngredients := [], additionalIngredients := some "   " }
    none (some "key") [] [] rfl (by decide) rfl

theorem foldl_dedup_step (l : List String) : ∀ acc : List String,
    l.foldl (fun acc x => if x ∈ acc then acc else acc ++ [x]) acc =
      acc ++ dedupFirstSpec (l.filter (fun y => y ∉ acc)) := by
  induction l with
  | nil => intro acc; simp [dedupFirstSpec]
  | cons x xs ih =>
    intro acc
    by_cases hx : x ∈ acc
    · simp only [List.foldl_cons, if_pos hx]
      rw [ih acc]
      congr 2
      simp [List.filter_cons, hx]
    · simp only [List.foldl_cons, if_neg hx]
      rw [ih (acc ++ [x])]
      have hfc : (x :: xs).filter (fun y => decide (y ∉ acc)) =
          x :: xs.filter (fun y => decide (y ∉ acc)) := by
        simp [List.filter_cons, hx]
      rw [hfc, dedupFirstSpec]
      have hff : xs.filter (fun y => decide (y ∉ acc ++ [x])) =
          (xs.filter (fun y => decide (y ∉ acc))).filter (fun y => decide (y ≠ x)) := by
        rw [List.filter_filter]
        apply List.filter_congr
        intro y _
        simp [List.mem_append, not_or, and_comm]
      rw [hff]
      simp

theorem jsSetDedup_eq_spec (l : List String) : jsSetDedup l = dedupFirstSpec l := by
  rw [jsSetDedup, foldl_dedup_step l []]
  simp

theorem dedupFirstSpec_subset : ∀ l : List String, dedupFirstSpec l ⊆ l
  | [] => by simp [dedupFirstSpec]
  | x :: xs => by
    rw [dedupFirstSpec]
    intro y hy
    rcases List.mem_cons.mp hy with h | h
    · exact h ▸ List.mem_cons_self x xs
    · have hmem := dedupFirstSpec_subset (xs.filter (fun y => y ≠ x)) h
      exact List.mem_cons_of_mem x (List.mem_of_mem_filter hmem)
termination_by l => l.length
decreasing_by
  simp only [List.length_cons]
  have := List.length_filter_le (fun y => decide (y ≠ x)) xs
  omega

theorem dedupFirstSpec_nodup : ∀ l : List String, (dedupFirstSpec l).Nodup
  | [] => by simp [dedupFirstSpec]
  | x :: xs => by
    rw [dedupFirstSpec]
    refine List.nodup_cons.mpr ⟨?_, dedupFirstSpec_nodup (xs.filter (fun y => y ≠ x))⟩
    intro hx
    have hmem := dedupFirstSpec_subset (xs.filter (fun y => y ≠ x)) hx
    have := (List.mem_filter.mp hmem).2
    simp at this
termination_by l => l.length
decreasing_by
  simp only [List.length_cons]
  have := List.length_filter_le (fun y => decide (y ≠ x)) xs
  omega

/-- C7: the downloaded shopping-list text is exactly the newline-join of
the de-duplicated input, where de-duplication keeps the first occurrence
of each ingredient in first-occurrence order (`dedupFirstSpec`), and the
de-duplicated list indeed has no duplicates. -/
theorem C7_shopping_list_download (ingredients : List String) :
    handleDownloadShoppingList ingredients =
      String.intercalate "\n" (dedupFirstSpec ingredients) ∧
    (jsSetDedup ingredients).Nodup ∧
    (∀ x, x ∈ jsSetDedup ingredients ↔ x ∈ ingredients) := by
  refine ⟨by rw [handleDownloadShoppingList, jsSetDedup_eq_spec], ?_, ?_⟩
  · rw [jsSetDedup_eq_spec]
    exact dedupFirstSpec_nodup ingredients
  · intro x
    rw [jsSetDedup_eq_spec]
    constructor
    · exact fun h => dedupFirstSpec_subset ingredients h
    · intro hx
      induction ingredients using dedupFirstSpec.induct with
      | case1 => simp at hx
      | case2 a l ih =>
        rw [dedupFirstSpec]
        rcases List.mem_cons.mp hx with h | h
        · exact h ▸ List.mem_cons_self a _
        · by_cases hax : x = a
          · exact hax ▸ List.mem_cons_self a _
          · exact List.mem_cons_of_mem a
              (ih (List.mem_filter.mpr ⟨h, by simpa using hax⟩))

/-- C8 (spec-modelled): given the first of the 5 candidates collides with
the ledger (its exact key is a seen entry and the similarity judgment is
reflexive), the selection returns index 0 exactly when every candidate
collides; so candidate 0 is never selected while another candidate is
still unseen, and is selected anyway when all collide. -/
theorem C8_candidate0_iff_all_collide
    (sim : String → String → Bool) (seen : List String)
    (c0 : RecipeOption) (rest : List RecipeOption)
    (hlen : (c0 :: rest).length = 5)
    (hrefl : ∀ s, sim s s = true)
    (hmem : c0.recipeName ∈ seen) :
    selectFirstUniqueIdx sim seen ((c0 :: rest).map RecipeOption.recipeName) = 0 ↔
      ∀ c ∈ c0 :: rest, collidesWith sim seen c.recipeName = true := by
  have hc0 : collidesWith sim seen c0.recipeName = true := by
    rw [collidesWith, List.any_eq_true]
    exact ⟨c0.recipeName, hmem, hrefl _⟩
  constructor
  · intro h0
    rw [selectFirstUniqueIdx] at h0
    simp only [List.map_cons, List.findIdx?_cons, hc0, Bool.not_true,
      Bool.false_eq_true, if_false, List.findIdx?_succ] at h0
    cases hfi : List.findIdx? (fun t => !(collidesWith sim seen t))
        (rest.map RecipeOption.recipeName) 0 with
    | some j =>
      rw [hfi] at h0
      simp at h0
    | none =>
      intro c hc
      rcases List.mem_cons.mp hc with hceq | hcr
      · rw [hceq]
        exact hc0
      · have hall := List.findIdx?_eq_none_iff.mp hfi
        have hfalse := hall c.recipeName (List.mem_map.mpr ⟨c, hcr, rfl⟩)
        simpa using hfalse
  · intro hall
    rw [selectFirstUniqueIdx]
    have hnone : List.findIdx? (fun t => !(collidesWith sim seen t))
        ((c0 :: rest).map RecipeOption.recipeName) 0 = none := by
      rw [List.findIdx?_eq_none_iff]
      intro t ht
      rcases List.mem_map.mp ht with ⟨c, hc, rfl⟩
      simp [hall c hc]
    rw [hnone]

theorem C8_witness :
    selectFirstUniqueIdx (fun a b => a == b) ["Rice Bowl"]
        (([exRecipeOption, exRecipeOption, exRecipeOption, exRecipeOption,
          exRecipeOption] : List RecipeOption).map RecipeOption.recipeName) = 0 ↔
      ∀ c ∈ ([exRecipeOption, exRecipeOption, exRecipeOption, exRecipeOption,
          exRecipeOption] : List RecipeOption),
        collidesWith (fun a b => a == b) ["Rice Bowl"] c.recipeName = true :=
  C8_candidate0_iff_all_collide (fun a b => a == b) ["Rice Bowl"] exRecipeOption
    [exRecipeOption, exRecipeOption, exRecipeOption, exRecipeOption] rfl
    (fun s => by simp) (by decide)

/-- C9: for operand draws in the source's range, the CAPTCHA answer string
is the decimal rendering of the exact value of the expression shown in
the question string, and that value is never negative (subtraction swaps
the operands in both question and answer when the first is smaller). -/
theorem C9_captcha_answer_matches_question (apiKey : String) (num1 num2 : Int)
    (op : MathOp) (hkey : apiKey ≠ "") (h1 : 1 ≤ num1) (h2 : 1 ≤ num2) :
    ∃ c a b, generateCaptcha apiKey num1 num2 op = Except.ok (some c) ∧
      c.question = renderQuestion a op b ∧
      c.answer = toString (evalExpr a op b) ∧
      0 ≤ evalExpr a op b := by
  rw [generateCaptcha, if_neg hkey]
  cases op with
  | add =>
    refine ⟨generateMathProblem num1 num2 MathOp.add, num1, num2, rfl, rfl, rfl, ?_⟩
    simp only [evalExpr]
    omega
  | sub =>
    by_cases hlt : num1 < num2
    · refine ⟨generateMathProblem num1 num2 MathOp.sub, num2, num1, rfl, ?_, ?_, ?_⟩
      · simp [generateMathProblem, hlt]
      · simp [generateMathProblem, hlt, evalExpr]
      · simp only [evalExpr]
        omega
    · refine ⟨generateMathProblem num1 num2 MathOp.sub, num1, num2, rfl, ?_, ?_, ?_⟩
      · simp [generateMathProblem, hlt]
      · simp [generateMathProblem, hlt, evalExpr]
      · simp only [evalExpr]
        omega
  | mul =>
    refine ⟨generateMathProblem num1 num2 MathOp.mul, num1, num2, rfl, rfl, rfl, ?_⟩
    simp only [evalExpr]
    have ha : (0 : Int) ≤ num1 := by omega
    have hb : (0 : Int) ≤ num2 := by omega
    exact mul_nonneg ha hb

theorem C9_witness :
    ∃ c a b, generateCaptcha "key" 3 5 MathOp.sub = Except.ok (some c) ∧
      c.question = renderQuestion a MathOp.sub b ∧
      c.answer = toString (evalExpr a MathOp.sub b) ∧
      0 ≤ evalExpr a MathOp.sub b :=
  C9_captcha_answer_matches_question "key" 3 5 MathOp.sub (by decide)
    (by decide) (by decide)

/-- C10 fails on the code: `setApiKey` with the non-null key `""` takes
the falsy branch of JS `if (key)`, so it removes the stored key and
resets the verification flag instead of storing the key and leaving the
flag unchanged. -/
theorem C10_counterexample :
    exCtxState.isVerifiedHuman = true ∧
    (setApiKey exCtxState (some "")).isVerifiedHuman = false ∧
    (setApiKey exCtxState (some "")).apiKeyStorage = none ∧
    (setApiKey exCtxState (some "")).humanVerifiedStorage = some "false" := by
  decide

/-- C10 amended: `setApiKey` with a falsy key (null or the empty string)
removes the stored key, resets the verification flag to false and
persists `"false"` to session storage; `setApiKey` with a truthy
(non-empty) key stores the key and leaves the verification flag, its
session persistence and all four seen-item lists unchanged. -/
theorem C10_amended_setApiKey (s : AppCtxState) (key : Option String) :
    (jsFalsyStr key = true →
      (setApiKey s key).apiKey = key ∧
      (setApiKey s key).apiKeyStorage = none ∧
      (setApiKey s key).isVerifiedHuman = false ∧
      (setApiKey s key).humanVerifiedStorage = some "false" ∧
      (setApiKey s key).seenQuotes = s.seenQuotes ∧
      (setApiKey s key).seenRecipeTitles = s.seenRecipeTitles ∧
      (setApiKey s key).seenPassportDishes = s.seenPassportDishes ∧
      (setApiKey s key).seenWeeklyPlanTitles = s.seenWeeklyPlanTitles) ∧
    (jsFalsyStr key = false →
      (setApiKey s key).apiKey = key ∧
      (setApiKey s key).apiKeyStorage = key ∧
      (setApiKey s key).isVerifiedHuman = s.isVerifiedHuman ∧
      (setApiKey s key).humanVerifiedStorage = s.humanVerifiedStorage ∧
      (setApiKey s key).seenQuotes = s.seenQuotes ∧
      (setApiKey s key).seenRecipeTitles = s.seenRecipeTitles ∧
      (setApiKey s key).seenPassportDishes = s.seenPassportDishes ∧
      (setApiKey s key).seenWeeklyPlanTitles = s.seenWeeklyPlanTitles) := by
  constructor
  · intro hf
    simp [setApiKey, setVerifiedHuman, hf]
  · intro hf
    simp [setApiKey, hf]

theorem C10_witness :
    (setApiKey exCtxState none).isVerifiedHuman = false ∧
    (setApiKey exCtxState none).humanVerifiedStorage = some "false" ∧
    (setApiKey exCtxState (some "new")).isVerifiedHuman =
      exCtxState.isVerifiedHuman ∧
    (setApiKey exCtxState (some "new")).seenQuotes = exCtxState.seenQuotes :=
  ⟨((C10_amended_setApiKey exCtxState none).1 (by decide)).2.2.1,
   ((C10_amended_setApiKey exCtxState none).1 (by decide)).2.2.2.1,
   ((C10_amended_setApiKey exCtxState (some "new")).2 (by decide)).2.2.1,
   ((C10_amended_setApiKey exCtxState (some "new")).2 (by decide)).2.2.2.2.1⟩

end VeggieMuse
